import Mathlib

/-!
GSWndOGL: X11 / GLX window and rendering-context lifecycle.

A shallow embedding of `pcsx2/GS/Window/GSWndOGL.cpp`.

* The member variables of the C++ object are the fields of `GSWndOGL`.
* The file-level statics (`ctxError`, and the X error handler currently
  installed in the process) live next to the object in `Process`.
* Every call that leaves the translation unit (Xlib, GLX, `theApp`,
  `fprintf(stderr, ..)`) is recorded, in program order, as a `Call` in the
  trace of the `Outcome`; what such a call answers is read from a `Platform`.
* A C++ `throw GSRecoverableError()` is `Except.error Fault.GSRecoverableError`;
  the state reached at the throw is kept (C++ does not roll back).
-/

/-! ## Handles and platform vocabulary -/

/-- The handler registered with `XSetErrorHandler`: either the file-static
`ctxErrorHandler` of GSWndOGL.cpp or some other handler (Xlib's default or the
host's), identified by a number. -/
inductive XErrorHandler where
  | ctxErrorHandler
  | other (id : Nat)
  deriving DecidableEq, Repr

/-- The single error kind of the source, `GSRecoverableError`, together with
the one undefined behaviour the source can reach on its own: a call through a
null function pointer returned by `glXGetProcAddress`. -/
inductive Fault where
  | GSRecoverableError
  | nullCall
  deriving DecidableEq, Repr

/-- Every call that leaves GSWndOGL.cpp, with the values of its argument
expressions at the call site.  Pointers (`Display*`, `GLXContext`, function
pointers) and X ids (`Window`) are natural numbers, `0` being `NULL` / `None`.
A call through one of the two member function pointers also records the
address called. -/
inductive Call where
  | fprintf (fmt : String) (args : List Int)
  | glXGetProcAddress (name : String)
  | glX_ChooseFBConfig (dpy : Nat) (screen : Int) (attribs : List Int)
  | XSetErrorHandler (h : XErrorHandler)
  | XSync (dpy : Nat) (discard : Bool)
  | glX_CreateContextAttribsARB (dpy : Nat) (config : Nat) (share : Nat) (direct : Bool)
      (attribs : List Int)
  | XFree
  | glXMakeCurrent (dpy : Nat) (drawable : Nat) (ctx : Nat)
  | glXQueryExtensionsString (dpy : Nat) (screen : Int)
  | XOpenDisplay
  | glXDestroyContext (dpy : Nat) (ctx : Nat)
  | XCloseDisplay (dpy : Nat)
  | GetConfigI (key : String)
  | XCreateSimpleWindow (dpy : Nat) (parent : Nat) (x y : Int) (width height : Int)
      (border_width border background : Int)
  | XMapWindow (dpy : Nat) (w : Nat)
  | XGetGeometry (dpy : Nat) (d : Nat)
  | m_swapinterval_ext (target : Nat) (dpy : Nat) (drawable : Nat) (interval : Int)
  | m_swapinterval_mesa (target : Nat) (interval : Int)
  | glXSwapBuffers (dpy : Nat) (drawable : Nat)
  deriving DecidableEq, Repr

/-- Width and height of an X11 `GetGeometry` reply.  Both are `CARD16` in the
core protocol; Xlib widens them into the caller's `unsigned int`. -/
structure Geometry where
  width : Fin 65536
  height : Fin 65536
  deriving DecidableEq, Repr

/-- What `glX_ChooseFBConfig` hands back: the returned array (`none` is the
null pointer) and the count written through `&fbcount`. -/
structure FBConfigs where
  fbc : Option (List Nat)
  fbcount : Int
  deriving DecidableEq, Repr

/-- What the server answers to `glX_CreateContextAttribsARB`: the returned
handle, and whether the request made the server send an X error, which Xlib
passes to the handler installed at that moment. -/
structure ContextReply where
  context : Nat
  xError : Bool
  deriving DecidableEq, Repr

/-- The answers of everything outside GSWndOGL.cpp: the X server and GLX
driver, the configuration store `theApp`, and the build flag
`ENABLE_OGL_DEBUG`. -/
structure Platform where
  ENABLE_OGL_DEBUG : Bool
  glXGetProcAddress : String → Nat
  DefaultScreen : Nat → Int
  DefaultRootWindow : Nat → Nat
  glX_ChooseFBConfig : Nat → Int → List Int → FBConfigs
  glX_CreateContextAttribsARB : Nat → Nat → Nat → Bool → List Int → ContextReply
  glXQueryExtensionsString : Nat → Int → Option String
  XOpenDisplay : Nat
  XCreateSimpleWindow : Nat → Nat → Int → Int → Int → Int → Int → Int → Int → Nat
  XGetGeometry : Nat → Nat → Option Geometry
  GetConfigI : String → Int

/-! ## Object and process state -/

/-- The member variables of `GSWndOGL` (those of its base class included:
`m_ctx_attached`, `m_managed`, `m_vsync`, `m_vsync_change_requested`). -/
structure GSWndOGL where
  m_NativeWindow : Nat
  m_NativeDisplay : Nat
  m_context : Nat
  m_has_late_vsync : Bool
  m_swapinterval_ext : Nat
  m_swapinterval_mesa : Nat
  m_ctx_attached : Bool
  m_managed : Bool
  m_vsync : Int
  m_vsync_change_requested : Bool
  deriving DecidableEq, Repr

/-- The object together with the process-wide state GSWndOGL.cpp touches:
the static `ctxError` and the X error handler currently installed. -/
structure Process where
  wnd : GSWndOGL
  ctxError : Bool
  xErrorHandler : XErrorHandler
  deriving DecidableEq, Repr

/-- Result of running a member function: the state it leaves, the calls it
made, and its return value or the fault that ended it. -/
structure Outcome (α : Type) where
  state : Process
  trace : List Call
  result : Except Fault α

/-- Run `g` after `f` when `f` returned normally; the traces are joined. -/
def Outcome.andThen {α β : Type} (f : Outcome α) (g : Process → Outcome β) : Outcome β :=
  match f.result with
  | .ok _ => { state := (g f.state).state, trace := f.trace ++ (g f.state).trace,
               result := (g f.state).result }
  | .error e => { state := f.state, trace := f.trace, result := .error e }

/-- The static function `ctxErrorHandler`: sets `ctxError` and returns 0. -/
def ctxErrorHandler (_ctxError : Bool) : Bool := true

/-- Xlib passing an X error to the installed handler; only `ctxErrorHandler`
writes to `ctxError`. -/
def dispatchXError (h : XErrorHandler) (ctxError : Bool) : Bool :=
  match h with
  | .ctxErrorHandler => ctxErrorHandler ctxError
  | .other _ => ctxError

def GLX_X_RENDERABLE : Int := 0x8012
def GLX_RED_SIZE : Int := 8
def GLX_GREEN_SIZE : Int := 9
def GLX_BLUE_SIZE : Int := 10
def GLX_DEPTH_SIZE : Int := 12
def GLX_DOUBLEBUFFER : Int := 5
def GLX_CONTEXT_MAJOR_VERSION_ARB : Int := 0x2091
def GLX_CONTEXT_MINOR_VERSION_ARB : Int := 0x2092
def GLX_CONTEXT_FLAGS_ARB : Int := 0x2094
def GLX_CONTEXT_DEBUG_BIT_ARB : Int := 0x0001
def GLX_CONTEXT_PROFILE_MASK_ARB : Int := 0x9126
def GLX_CONTEXT_CORE_PROFILE_BIT_ARB : Int := 0x00000001

namespace GSWndOGL

/-- Modelled from the spec: `IsContextAttached()` is declared in the base class
header, which is not among the sources; the spec calls it a pure query of
AttachmentState. -/
def IsContextAttached (s : Process) : Bool := s.wnd.m_ctx_attached

/-- Member function `GSWndOGL::AttachContext`. -/
def AttachContext (s : Process) : Outcome Unit :=
  if IsContextAttached s = false then
    { state := { s with wnd := { s.wnd with m_ctx_attached := true } },
      trace := [.glXMakeCurrent s.wnd.m_NativeDisplay s.wnd.m_NativeWindow s.wnd.m_context],
      result := .ok () }
  else
    { state := s, trace := [], result := .ok () }

/-- Member function `GSWndOGL::DetachContext`. -/
def DetachContext (s : Process) : Outcome Unit :=
  if IsContextAttached s = true then
    { state := { s with wnd := { s.wnd with m_ctx_attached := false } },
      trace := [.glXMakeCurrent s.wnd.m_NativeDisplay 0 0],
      result := .ok () }
  else
    { state := s, trace := [], result := .ok () }

/-- Member function `GSWndOGL::Detach`. -/
def Detach (s : Process) : Outcome Unit :=
  let r1 := DetachContext s
  let s1 := r1.state
  let t2 := if s1.wnd.m_context ≠ 0 then
      r1.trace ++ [.glXDestroyContext s1.wnd.m_NativeDisplay s1.wnd.m_context]
    else r1.trace
  if s1.wnd.m_NativeDisplay ≠ 0 then
    { state := { s1 with wnd := { s1.wnd with m_NativeDisplay := 0 } },
      trace := t2 ++ [.XCloseDisplay s1.wnd.m_NativeDisplay],
      result := .ok () }
  else
    { state := s1, trace := t2, result := .ok () }

/-- The static array `attrListDbl` of `CreateContext` (`True` is 1, `None` is 0). -/
def attrListDbl : List Int :=
  [GLX_X_RENDERABLE, 1, GLX_RED_SIZE, 8, GLX_GREEN_SIZE, 8, GLX_BLUE_SIZE, 8,
   GLX_DEPTH_SIZE, 0, GLX_DOUBLEBUFFER, 1, 0]

/-- The local array `context_attribs` of `CreateContext`. -/
def context_attribs (P : Platform) (major minor : Int) : List Int :=
  [GLX_CONTEXT_MAJOR_VERSION_ARB, major, GLX_CONTEXT_MINOR_VERSION_ARB, minor]
  ++ (if P.ENABLE_OGL_DEBUG then [GLX_CONTEXT_FLAGS_ARB, GLX_CONTEXT_DEBUG_BIT_ARB] else [])
  ++ [GLX_CONTEXT_PROFILE_MASK_ARB, GLX_CONTEXT_CORE_PROFILE_BIT_ARB, 0]

/-- The format string of the last diagnostic of `CreateContext`. -/
def createFailedMsg : String :=
  "Failed to create the opengl context. Check your drivers support openGL %d.%d. Hint: opensource drivers don\x27t\n"

/-- Member function `GSWndOGL::CreateContext`.  An X error caused by the context
request reaches the handler installed while the request is made, which is
`ctxErrorHandler`; the static `ctxError` is read afterwards and never reset. -/
def CreateContext (P : Platform) (major minor : Int) (s : Process) : Outcome Unit :=
  if s.wnd.m_NativeDisplay = 0 ∨ s.wnd.m_NativeWindow = 0 then
    { state := s, trace := [.fprintf "Wrong X11 display/window\n" []],
      result := .error .GSRecoverableError }
  else
    let dpy := s.wnd.m_NativeDisplay
    let t1 : List Call := [.glXGetProcAddress "glXChooseFBConfig"]
    if P.glXGetProcAddress "glXChooseFBConfig" = 0 then
      { state := s, trace := t1, result := .error .nullCall }
    else
      let r := P.glX_ChooseFBConfig dpy (P.DefaultScreen dpy) attrListDbl
      let t2 := t1 ++ [.glX_ChooseFBConfig dpy (P.DefaultScreen dpy) attrListDbl]
      if r.fbc = none ∨ r.fbcount < 1 then
        { state := s, trace := t2, result := .error .GSRecoverableError }
      else
        let t3 := t2 ++ [.glXGetProcAddress "glXCreateContextAttribsARB"]
        if P.glXGetProcAddress "glXCreateContextAttribsARB" = 0 then
          { state := s, trace := t3, result := .error .GSRecoverableError }
        else
          let oldHandler := s.xErrorHandler
          let installed := XErrorHandler.ctxErrorHandler
          let fbc0 := ((r.fbc.getD []).head?).getD 0
          let attribs := context_attribs P major minor
          let reply := P.glX_CreateContextAttribsARB dpy fbc0 0 true attribs
          let ctxError1 := if reply.xError then dispatchXError installed s.ctxError else s.ctxError
          let s1 : Process :=
            { wnd := { s.wnd with m_context := reply.context },
              ctxError := ctxError1, xErrorHandler := oldHandler }
          let t4 := t3 ++ [.XSetErrorHandler installed, .XSync dpy false,
            .glX_CreateContextAttribsARB dpy fbc0 0 true attribs, .XFree,
            .XSetErrorHandler oldHandler, .XSync dpy false]
          if s1.wnd.m_context = 0 ∨ s1.ctxError = true then
            { state := s1, trace := t4 ++ [.fprintf createFailedMsg [major, minor]],
              result := .error .GSRecoverableError }
          else
            { state := s1, trace := t4, result := .ok () }

/-- Member function `GSWndOGL::Create`.  `FullContextInit` belongs to the base class, whose
source is not given; it is a parameter. -/
def Create (P : Platform) (FullContextInit : Process → Outcome Unit)
    (_title : String) (w h : Int) (s : Process) : Outcome Bool :=
  if s.wnd.m_NativeWindow ≠ 0 then
    { state := s, trace := [], result := .error .GSRecoverableError }
  else
    let w1 := if w ≤ 0 ∨ h ≤ 0 then P.GetConfigI "ModeWidth" else w
    let h1 := if w ≤ 0 ∨ h ≤ 0 then P.GetConfigI "ModeHeight" else h
    let t0 : List Call :=
      if w ≤ 0 ∨ h ≤ 0 then [.GetConfigI "ModeWidth", .GetConfigI "ModeHeight"] else []
    let dpy := P.XOpenDisplay
    let root := P.DefaultRootWindow dpy
    let win := P.XCreateSimpleWindow dpy root 0 0 w1 h1 0 0 0
    let s1 : Process :=
      { s with wnd := { s.wnd with m_managed := true, m_NativeDisplay := dpy,
                                   m_NativeWindow := win } }
    let t1 := t0 ++ [.XOpenDisplay, .XCreateSimpleWindow dpy root 0 0 w1 h1 0 0 0,
                     .XMapWindow dpy win]
    if win = 0 then
      { state := s1, trace := t1, result := .error .GSRecoverableError }
    else
      let r := FullContextInit s1
      match r.result with
      | .ok _ => { state := r.state, trace := t1 ++ r.trace, result := .ok true }
      | .error e => { state := r.state, trace := t1 ++ r.trace, result := .error e }

/-- Member function `GSWndOGL::SetSwapInterval`. -/
def SetSwapInterval (s : Process) : Outcome Unit :=
  if s.wnd.m_swapinterval_ext ≠ 0 then
    { state := s,
      trace := [.m_swapinterval_ext s.wnd.m_swapinterval_ext s.wnd.m_NativeDisplay
                  s.wnd.m_NativeWindow s.wnd.m_vsync],
      result := .ok () }
  else if s.wnd.m_swapinterval_mesa ≠ 0 then
    { state := s, trace := [.m_swapinterval_mesa s.wnd.m_swapinterval_mesa s.wnd.m_vsync],
      result := .ok () }
  else
    { state := s, trace := [.fprintf "Failed to set VSync\n" []], result := .ok () }

/-- Member function `GSWndOGL::Flip`.  `m_vsync_change_requested.exchange(false)` reads the flag
and clears it in one step. -/
def Flip (s : Process) : Outcome Unit :=
  let requested := s.wnd.m_vsync_change_requested
  let s1 : Process := { s with wnd := { s.wnd with m_vsync_change_requested := false } }
  let r : Outcome Unit :=
    if requested = true then SetSwapInterval s1
    else { state := s1, trace := [], result := .ok () }
  r.andThen fun s2 =>
    { state := s2,
      trace := [.glXSwapBuffers s2.wnd.m_NativeDisplay s2.wnd.m_NativeWindow],
      result := .ok () }

end GSWndOGL

/-! ## Observations on traces -/

/-- The call is `glXMakeCurrent`. -/
def Call.isMakeCurrent : Call → Bool
  | .glXMakeCurrent _ _ _ => true
  | _ => false

/-- The call is `glXDestroyContext`. -/
def Call.isDestroyContext : Call → Bool
  | .glXDestroyContext _ _ => true
  | _ => false

/-- The call is `XCloseDisplay`. -/
def Call.isCloseDisplay : Call → Bool
  | .XCloseDisplay _ => true
  | _ => false

/-- The call installs an X error handler. -/
def Call.isSetErrorHandler : Call → Bool
  | .XSetErrorHandler _ => true
  | _ => false

/-- The call is the context-creation request. -/
def Call.isCreateContextAttribs : Call → Bool
  | .glX_CreateContextAttribsARB _ _ _ _ _ => true
  | _ => false

/-- The call is `glXSwapBuffers`. -/
def Call.isSwapBuffers : Call → Bool
  | .glXSwapBuffers _ _ => true
  | _ => false

/-- The call reads the configuration store. -/
def Call.isGetConfig : Call → Bool
  | .GetConfigI _ => true
  | _ => false

/-! ## Concrete inputs -/

/-- An object with window 2 on display 9, context 5 created and attached. -/
def sAttached : Process :=
  { wnd := { m_NativeWindow := 2, m_NativeDisplay := 9, m_context := 5,
             m_has_late_vsync := false, m_swapinterval_ext := 0, m_swapinterval_mesa := 0,
             m_ctx_attached := true, m_managed := false, m_vsync := 1,
             m_vsync_change_requested := false },
    ctxError := false, xErrorHandler := .other 0 }

/-- The same object with the context not attached. -/
def sDetached : Process :=
  { sAttached with wnd := { sAttached.wnd with m_ctx_attached := false } }

/-- The attached object with a vsync change pending and both swap-interval
entry points resolved. -/
def sVsyncPending : Process :=
  { sAttached with wnd := { sAttached.wnd with m_vsync_change_requested := true,
                                               m_swapinterval_ext := 16,
                                               m_swapinterval_mesa := 32 } }

/-- A driver that offers OpenGL up to 3.x: every entry point resolves, one
framebuffer configuration (42) matches, a context request for major version
at most 3 yields context 7, a higher one yields no context and an X error.
It advertises `GLX_MESA_swap_control` but not `GLX_EXT_swap_control`. -/
def driverGL3 : Platform :=
  { ENABLE_OGL_DEBUG := false
    glXGetProcAddress := fun _ => 64
    DefaultScreen := fun _ => 0
    DefaultRootWindow := fun _ => 1
    glX_ChooseFBConfig := fun _ _ _ => { fbc := some [42], fbcount := 1 }
    glX_CreateContextAttribsARB := fun _ _ _ _ a =>
      if a.getD 1 0 ≤ 3 then { context := 7, xError := false }
      else { context := 0, xError := true }
    glXQueryExtensionsString := fun _ _ => some "GLX_ARB_create_context GLX_MESA_swap_control"
    XOpenDisplay := 9
    XCreateSimpleWindow := fun _ _ _ _ _ _ _ _ _ => 2
    XGetGeometry := fun _ _ => some { width := 1280, height := 720 }
    GetConfigI := fun k => if k = "ModeWidth" then 800 else if k = "ModeHeight" then 600 else 0 }

/-- The same driver when no framebuffer configuration matches and the
geometry query fails. -/
def driverNoConfig : Platform :=
  { driverGL3 with
    glX_ChooseFBConfig := fun _ _ _ => { fbc := none, fbcount := 0 }
    XGetGeometry := fun _ _ => none }

/-- A stand-in for the base class initialisation that does nothing. -/
def noInit (s : Process) : Outcome Unit := { state := s, trace := [], result := .ok () }

namespace GSWndOGL

/-! ## Attach / detach state -/

/-- C4. `AttachContext` twice in a row leaves the state a single `AttachContext`
leaves, with the context attached, and the two calls together issue
`glXMakeCurrent(display, window, context)` once when the object started
detached and not at all when it started attached. -/
theorem AttachContext_idempotent (s : Process) :
    ((AttachContext s).andThen AttachContext).state = (AttachContext s).state ∧
    ((AttachContext s).andThen AttachContext).state.wnd.m_ctx_attached = true ∧
    ((AttachContext s).andThen AttachContext).result = .ok () ∧
    ((AttachContext s).andThen AttachContext).trace =
      (if s.wnd.m_ctx_attached = true then []
       else [.glXMakeCurrent s.wnd.m_NativeDisplay s.wnd.m_NativeWindow s.wnd.m_context]) ∧
    (((AttachContext s).andThen AttachContext).trace.filter Call.isMakeCurrent).length =
      (if s.wnd.m_ctx_attached = true then 0 else 1) := by
  cases h : s.wnd.m_ctx_attached <;>
    simp [AttachContext, Outcome.andThen, IsContextAttached, h, Call.isMakeCurrent]

/-- C5. On a detached object `DetachContext` changes nothing and makes no
call; on an attached one it calls `glXMakeCurrent(display, None, NULL)` once
and clears `m_ctx_attached`, every other field staying as it was. -/
theorem DetachContext_spec (s : Process) :
    (s.wnd.m_ctx_attached = false →
      (DetachContext s).state = s ∧ (DetachContext s).trace = [] ∧
      (DetachContext s).result = .ok ()) ∧
    (s.wnd.m_ctx_attached = true →
      (DetachContext s).trace = [.glXMakeCurrent s.wnd.m_NativeDisplay 0 0] ∧
      ((DetachContext s).trace.filter Call.isMakeCurrent).length = 1 ∧
      (DetachContext s).state = { s with wnd := { s.wnd with m_ctx_attached := false } } ∧
      (DetachContext s).state.wnd.m_ctx_attached = false ∧
      (DetachContext s).state.wnd.m_NativeDisplay = s.wnd.m_NativeDisplay ∧
      (DetachContext s).state.wnd.m_NativeWindow = s.wnd.m_NativeWindow ∧
      (DetachContext s).state.wnd.m_context = s.wnd.m_context ∧
      (DetachContext s).result = .ok ()) := by
  constructor <;> intro h <;>
    simp [DetachContext, IsContextAttached, h, Call.isMakeCurrent]

/-- Witness of C5 on a detached and on an attached object. -/
theorem DetachContext_spec_witness :
    ((DetachContext sDetached).state = sDetached ∧ (DetachContext sDetached).trace = [] ∧
      (DetachContext sDetached).result = .ok ()) ∧
    ((DetachContext sAttached).trace = [.glXMakeCurrent 9 0 0] ∧
      (DetachContext sAttached).state.wnd.m_ctx_attached = false) :=
  ⟨(DetachContext_spec sDetached).1 rfl,
   ((DetachContext_spec sAttached).2 rfl).1, ((DetachContext_spec sAttached).2 rfl).2.2.2.1⟩

/-! ## Teardown -/

/-- What a second `Detach` does, in general: the display is already null, the
context is already detached, but `m_context` still holds the destroyed handle. -/
theorem Detach_Detach (s : Process) :
    (Detach (Detach s).state).state = (Detach s).state ∧
    (Detach s).state.wnd.m_ctx_attached = false ∧
    (Detach s).state.wnd.m_NativeDisplay = 0 ∧
    (Detach s).state.wnd.m_context = s.wnd.m_context ∧
    (Detach (Detach s).state).trace =
      (if s.wnd.m_context ≠ 0 then [.glXDestroyContext 0 s.wnd.m_context] else []) := by
  cases h : s.wnd.m_ctx_attached <;>
    by_cases hc : s.wnd.m_context = 0 <;>
    by_cases hd : s.wnd.m_NativeDisplay = 0 <;>
    simp [Detach, DetachContext, IsContextAttached, h, hc, hd]

/-- C1, at the failing input. With window 2, display 9 and context 5 attached,
the first `Detach` detaches, destroys context 5 and closes display 9; it leaves
`m_context = 5`, so the second `Detach` calls `glXDestroyContext(NULL, 5)`
again. The second call makes no `glXMakeCurrent` and no `XCloseDisplay` call
and leaves the state as the first call left it. -/
theorem Detach_twice_destroys_again :
    (Detach sAttached).trace =
      [.glXMakeCurrent 9 0 0, .glXDestroyContext 9 5, .XCloseDisplay 9] ∧
    (Detach sAttached).state.wnd.m_context = 5 ∧
    (Detach (Detach sAttached).state).trace = [.glXDestroyContext 0 5] ∧
    (Detach (Detach sAttached).state).state = (Detach sAttached).state := by
  decide

/-! ## Presentation -/

/-- Every `SetSwapInterval` makes exactly one call (an entry point or the
diagnostic), never changes the state and never throws. -/
theorem SetSwapInterval_total (s : Process) :
    (SetSwapInterval s).state = s ∧ (SetSwapInterval s).result = .ok () ∧
    (SetSwapInterval s).trace.length = 1 ∧
    (SetSwapInterval s).trace.all (fun c => !c.isSwapBuffers) = true := by
  unfold SetSwapInterval
  split_ifs <;> simp [Call.isSwapBuffers]

/-- C6. With the pending flag clear `Flip` only swaps buffers. With it set,
`Flip` clears the flag, runs `SetSwapInterval` once (its single call comes
first in the trace) and then swaps buffers once; the flag is clear afterwards,
so the next `Flip` only swaps buffers. -/
theorem Flip_spec (s : Process) :
    (s.wnd.m_vsync_change_requested = false →
      (Flip s).trace = [.glXSwapBuffers s.wnd.m_NativeDisplay s.wnd.m_NativeWindow] ∧
      (Flip s).state = s ∧ (Flip s).result = .ok ()) ∧
    (s.wnd.m_vsync_change_requested = true →
      (Flip s).trace =
        (SetSwapInterval { s with wnd := { s.wnd with m_vsync_change_requested := false } }).trace
          ++ [.glXSwapBuffers s.wnd.m_NativeDisplay s.wnd.m_NativeWindow] ∧
      (Flip s).trace.length = 2 ∧
      ((Flip s).trace.filter Call.isSwapBuffers).length = 1 ∧
      (Flip s).state = { s with wnd := { s.wnd with m_vsync_change_requested := false } } ∧
      (Flip s).result = .ok () ∧
      (Flip (Flip s).state).trace =
        [.glXSwapBuffers s.wnd.m_NativeDisplay s.wnd.m_NativeWindow]) := by
  constructor
  · intro h
    have hs : ({ s with wnd := { s.wnd with m_vsync_change_requested := false } } : Process) = s := by
      rcases s with ⟨⟨_, _, _, _, _, _, _, _, _, _⟩, _, _⟩
      simp_all
    simp [Flip, Outcome.andThen, h, hs]
  · intro h
    by_cases he : s.wnd.m_swapinterval_ext = 0 <;>
      by_cases hm : s.wnd.m_swapinterval_mesa = 0 <;>
      simp [Flip, SetSwapInterval, Outcome.andThen, Call.isSwapBuffers, h, he, hm]

/-- Witness of C6: a `Flip` with no change pending, then a `Flip` with a change
pending and the extended entry point at address 16, then the `Flip` after it. -/
theorem Flip_spec_witness :
    ((Flip sAttached).trace = [.glXSwapBuffers 9 2] ∧ (Flip sAttached).state = sAttached ∧
      (Flip sAttached).result = .ok ()) ∧
    (Flip sVsyncPending).trace = [.m_swapinterval_ext 16 9 2 1, .glXSwapBuffers 9 2] ∧
    (Flip sVsyncPending).state.wnd.m_vsync_change_requested = false ∧
    (Flip (Flip sVsyncPending).state).trace = [.glXSwapBuffers 9 2] :=
  ⟨(Flip_spec sAttached).1 rfl,
   ((Flip_spec sVsyncPending).2 rfl).1,
   by rw [((Flip_spec sVsyncPending).2 rfl).2.2.2.1],
   ((Flip_spec sVsyncPending).2 rfl).2.2.2.2.2⟩

/-! ## Window creation -/

/-- C7. `Create` on an object whose window handle is already non-zero throws
`GSRecoverableError` at once: the state is untouched and no call is made (no
configuration read, no display opened, no window created or mapped). -/
theorem Create_bound_window_fails (P : Platform) (init : Process → Outcome Unit)
    (title : String) (w h : Int) (s : Process) (hwin : s.wnd.m_NativeWindow ≠ 0) :
    (Create P init title w h s).result = .error .GSRecoverableError ∧
    (Create P init title w h s).state = s ∧
    (Create P init title w h s).trace = [] := by
  simp [Create, hwin]

/-- Witness of C7: the attached object already has window 2. -/
theorem Create_bound_window_fails_witness :
    (Create driverGL3 noInit "GS" 640 480 sAttached).result = .error .GSRecoverableError ∧
    (Create driverGL3 noInit "GS" 640 480 sAttached).state = sAttached ∧
    (Create driverGL3 noInit "GS" 640 480 sAttached).trace = [] :=
  Create_bound_window_fails driverGL3 noInit "GS" 640 480 sAttached (by decide)

/-- C2. With display and window bound, when `glX_ChooseFBConfig` (resolved and
called) returns a null list or a count below 1, `CreateContext` throws
`GSRecoverableError` and leaves the whole state, `m_context` and
`m_ctx_attached` in particular, as it was; it has only resolved and called
`glX_ChooseFBConfig`: no error handler is installed and no context is
requested. -/
theorem CreateContext_no_fbconfig (P : Platform) (major minor : Int) (s : Process)
    (hdpy : s.wnd.m_NativeDisplay ≠ 0) (hwin : s.wnd.m_NativeWindow ≠ 0)
    (hfn : P.glXGetProcAddress "glXChooseFBConfig" ≠ 0)
    (hnone : (P.glX_ChooseFBConfig s.wnd.m_NativeDisplay
                (P.DefaultScreen s.wnd.m_NativeDisplay) attrListDbl).fbc = none ∨
             (P.glX_ChooseFBConfig s.wnd.m_NativeDisplay
                (P.DefaultScreen s.wnd.m_NativeDisplay) attrListDbl).fbcount < 1) :
    (CreateContext P major minor s).result = .error .GSRecoverableError ∧
    (CreateContext P major minor s).state = s ∧
    (CreateContext P major minor s).state.wnd.m_context = s.wnd.m_context ∧
    (CreateContext P major minor s).state.wnd.m_ctx_attached = s.wnd.m_ctx_attached ∧
    (CreateContext P major minor s).trace =
      [.glXGetProcAddress "glXChooseFBConfig",
       .glX_ChooseFBConfig s.wnd.m_NativeDisplay (P.DefaultScreen s.wnd.m_NativeDisplay)
          attrListDbl] ∧
    (CreateContext P major minor s).trace.any Call.isSetErrorHandler = false ∧
    (CreateContext P major minor s).trace.any Call.isCreateContextAttribs = false := by
  simp [CreateContext, hdpy, hwin, hfn, hnone, Call.isSetErrorHandler,
    Call.isCreateContextAttribs]

/-- Witness of C2 on a driver without a matching configuration, for 3.3. -/
theorem CreateContext_no_fbconfig_witness :
    (CreateContext driverNoConfig 3 3 sDetached).result = .error .GSRecoverableError ∧
    (CreateContext driverNoConfig 3 3 sDetached).state = sDetached :=
  ⟨(CreateContext_no_fbconfig driverNoConfig 3 3 sDetached (by decide) (by decide)
      (by decide) (Or.inl rfl)).1,
   (CreateContext_no_fbconfig driverNoConfig 3 3 sDetached (by decide) (by decide)
      (by decide) (Or.inl rfl)).2.1⟩

/-- When display and window are bound, a configuration is found and both entry
points resolve, `CreateContext` stores the returned handle and throws exactly
when that handle is null, or an X error arrived during this call, or the
static `ctxError` was already set on entry; `ctxError` is never cleared. -/
theorem CreateContext_result (P : Platform) (major minor : Int) (s : Process)
    (hdpy : s.wnd.m_NativeDisplay ≠ 0) (hwin : s.wnd.m_NativeWindow ≠ 0)
    (hfn : P.glXGetProcAddress "glXChooseFBConfig" ≠ 0)
    (hfbc : (P.glX_ChooseFBConfig s.wnd.m_NativeDisplay
                (P.DefaultScreen s.wnd.m_NativeDisplay) attrListDbl).fbc ≠ none)
    (hcount : 1 ≤ (P.glX_ChooseFBConfig s.wnd.m_NativeDisplay
                (P.DefaultScreen s.wnd.m_NativeDisplay) attrListDbl).fbcount)
    (hcreate : P.glXGetProcAddress "glXCreateContextAttribsARB" ≠ 0)
    (reply : ContextReply)
    (hreply : reply = P.glX_CreateContextAttribsARB s.wnd.m_NativeDisplay
        (((P.glX_ChooseFBConfig s.wnd.m_NativeDisplay
            (P.DefaultScreen s.wnd.m_NativeDisplay) attrListDbl).fbc.getD []).head?.getD 0)
        0 true (context_attribs P major minor)) :
    ((CreateContext P major minor s).result = .error .GSRecoverableError ↔
      (reply.context = 0 ∨ reply.xError = true ∨ s.ctxError = true)) ∧
    ((CreateContext P major minor s).result = .ok () ∨
      (CreateContext P major minor s).result = .error .GSRecoverableError) ∧
    (CreateContext P major minor s).state.wnd.m_context = reply.context ∧
    (CreateContext P major minor s).state.wnd.m_ctx_attached = s.wnd.m_ctx_attached ∧
    (CreateContext P major minor s).state.ctxError = (s.ctxError || reply.xError) ∧
    (CreateContext P major minor s).state.xErrorHandler = s.xErrorHandler := by
  subst hreply
  have hcount2 : ¬ (P.glX_ChooseFBConfig s.wnd.m_NativeDisplay
      (P.DefaultScreen s.wnd.m_NativeDisplay) attrListDbl).fbcount < 1 := by omega
  generalize hr : P.glX_CreateContextAttribsARB s.wnd.m_NativeDisplay
        (((P.glX_ChooseFBConfig s.wnd.m_NativeDisplay
            (P.DefaultScreen s.wnd.m_NativeDisplay) attrListDbl).fbc.getD []).head?.getD 0)
        0 true (context_attribs P major minor) = reply
  rcases reply with ⟨ctx, xe⟩
  by_cases hc : ctx = 0 <;> cases xe <;> cases he : s.ctxError <;>
    simp [CreateContext, hdpy, hwin, hfn, hfbc, hcount2, hcreate, hr, hc, he,
      dispatchXError, ctxErrorHandler]

/-- C3, at the failing input. On a driver that supports OpenGL up to 3.x,
`CreateContext(4, 6)` fails because the request raises an X error, which sets
`ctxError`. In the retry `CreateContext(3, 3)` the driver returns the non-null
context 7 and raises no error, the handle is stored in `m_context`, and the
call still throws `GSRecoverableError`, because `ctxError` is still set. -/
theorem CreateContext_retry_fails :
    (CreateContext driverGL3 4 6 sDetached).result = .error .GSRecoverableError ∧
    (CreateContext driverGL3 4 6 sDetached).state.ctxError = true ∧
    driverGL3.glX_CreateContextAttribsARB 9 42 0 true (context_attribs driverGL3 3 3) =
      { context := 7, xError := false } ∧
    (CreateContext driverGL3 3 3 (CreateContext driverGL3 4 6 sDetached).state).state.wnd.m_context
      = 7 ∧
    (CreateContext driverGL3 3 3 (CreateContext driverGL3 4 6 sDetached).state).result =
      .error .GSRecoverableError ∧
    (CreateContext driverGL3 3 3 sDetached).result = .ok () := by
  refine ⟨?_, ?_, ?_, ?_, ?_, ?_⟩ <;> first | decide | rfl

/-! ## Window queries -/

end GSWndOGL
